import Mathlib

/-!
Shallow embedding of the cookie.io landmark-analysis pipeline.

The repository has two source files:
  * `services/geminiService.ts` — `analyzePhoto`, a three-stage sequential
    pipeline (identify landmark, fetch history, synthesize narration) over
    three vendor-service calls, with JS truthiness fallbacks and an isolated
    try/catch around the narration stage;
  * `App.tsx` — a three-state UI (`idle`/`analyzing`/`result`) whose
    `handleFileSelect` parses a data URL with a regex and drives the pipeline.

Machine-level JS details modelled explicitly:
  * `s?.trim() || fallback` : `undefined` and the empty string are falsy,
    so a missing or whitespace-only text yields the fallback (`jsTextOr`);
  * `x || null` on the extracted audio: the empty string collapses to
    `null` (`jsOrNull`);
  * optional chaining `a?.b?.[0]?.c` : every step is `Option`-valued
    (`ttsAudioChain`);
  * `String.prototype.trim` : removes leading and trailing ECMAScript
    whitespace and line terminators (`jsTrim`);
  * a service call either returns a response or throws: `Except String`,
    the `String` being the error message (`err.message`).
-/

/-- ECMAScript WhiteSpace ∪ LineTerminator, the characters
`String.prototype.trim` removes. -/
def jsWhitespaceChars : List Char :=
  [' ', '\t', '\n', '\r', Char.ofNat 0x0b, Char.ofNat 0x0c,
   Char.ofNat 0xa0, Char.ofNat 0x1680,
   Char.ofNat 0x2000, Char.ofNat 0x2001, Char.ofNat 0x2002, Char.ofNat 0x2003,
   Char.ofNat 0x2004, Char.ofNat 0x2005, Char.ofNat 0x2006, Char.ofNat 0x2007,
   Char.ofNat 0x2008, Char.ofNat 0x2009, Char.ofNat 0x200a,
   Char.ofNat 0x2028, Char.ofNat 0x2029, Char.ofNat 0x202f,
   Char.ofNat 0x205f, Char.ofNat 0x3000, Char.ofNat 0xfeff]

def isJsWhitespace (c : Char) : Bool := jsWhitespaceChars.contains c

/-- `trim` on the character list: drop whitespace from the front, then from
the back (via reverse). -/
def jsTrimList (l : List Char) : List Char :=
  (((l.dropWhile isJsWhitespace).reverse.dropWhile isJsWhitespace)).reverse

/-- Embedding of JavaScript `s.trim()`. -/
def jsTrim (s : String) : String := String.mk (jsTrimList s.data)

/-- Embedding of `t?.trim() || fallback`: a missing text or a text whose trim
is empty (both falsy in JS) yield the fallback, otherwise the trimmed text. -/
def jsTextOr (t : Option String) (fallback : String) : String :=
  match t with
  | none => fallback
  | some s => if jsTrim s = "" then fallback else jsTrim s

/-- Embedding of `x || null` on an optional string: the empty string is falsy
in JS, so it collapses to `none`. -/
def jsOrNull (o : Option String) : Option String :=
  match o with
  | none => none
  | some s => if s = "" then none else some s

/-- Response of a text-generation call; `.text` is `string | undefined` in
the SDK. -/
structure GenTextResponse where
  text : Option String
  deriving DecidableEq

/-- `inlineData` of a TTS response part. -/
structure InlineData where
  data : Option String
  deriving DecidableEq

structure TTSPart where
  inlineData : Option InlineData
  deriving DecidableEq

structure TTSContent where
  parts : Option (List TTSPart)
  deriving DecidableEq

structure TTSCandidate where
  content : Option TTSContent
  deriving DecidableEq

structure TTSResponse where
  candidates : Option (List TTSCandidate)
  deriving DecidableEq

/-- Embedding of
`ttsResponse.candidates?.[0]?.content?.parts?.[0]?.inlineData?.data`:
optional chaining through the first candidate's first part. -/
def ttsAudioChain (r : TTSResponse) : Option String := do
  let cs ← r.candidates
  let c ← cs.head?
  let ct ← c.content
  let ps ← ct.parts
  let p ← ps.head?
  let idata ← p.inlineData
  idata.data

/-- The record `analyzePhoto` returns:
`{ landmark: landmarkName, history: historyText, audioBase64 }`. -/
structure AnalysisResult where
  landmark : String
  history : String
  audioBase64 : Option String
  deriving DecidableEq

/-- The fixed instruction sent with the image in the identification call. -/
def identifyInstruction : String :=
  "Identify the main landmark, building, or point of interest in this photo. Return ONLY the name of the landmark and the city/country it is in. If there is no clear landmark, describe the scene briefly."

/-- The history-stage prompt template, interpolating the landmark label. -/
def historyPrompt (landmarkName : String) : String :=
  "You are an engaging tour guide. Tell me the history and interesting facts about " ++ landmarkName ++ ". Keep it engaging, informative, and concise (around 100-150 words)."

/-- The three vendor-service calls as oracles: each takes the request data the
source passes and either returns a response or throws (error message). -/
structure Services where
  identifyCall : String → String → Except String GenTextResponse
  historyCall : String → Except String GenTextResponse
  ttsCall : String → Except String TTSResponse

/-- One external call made during a pipeline run, with the request data the
source passes to it. -/
inductive ServiceCall where
  | identify (base64Image mimeType : String)
  | history (prompt : String)
  | tts (text : String)
  deriving DecidableEq

/-- `analyzePhoto`, instrumented with the ordered list of service calls the
run makes. Stage 1 and stage 2 failures propagate (the outer try/catch only
logs and rethrows); the narration stage's failure is caught locally and
leaves `audioBase64 = null`. -/
def analyzePhotoRun (svc : Services) (base64Image mimeType : String) :
    Except String AnalysisResult × List ServiceCall :=
  match svc.identifyCall base64Image mimeType with
  | Except.error e => (Except.error e, [ServiceCall.identify base64Image mimeType])
  | Except.ok identifyResponse =>
    let landmarkName := jsTextOr identifyResponse.text "Unknown Location"
    let prompt := historyPrompt landmarkName
    match svc.historyCall prompt with
    | Except.error e =>
        (Except.error e,
         [ServiceCall.identify base64Image mimeType, ServiceCall.history prompt])
    | Except.ok historyResponse =>
      let historyText := jsTextOr historyResponse.text "History not available."
      let audioBase64 :=
        match svc.ttsCall historyText with
        | Except.error _ => none
        | Except.ok ttsResponse => jsOrNull (ttsAudioChain ttsResponse)
      (Except.ok { landmark := landmarkName, history := historyText,
                   audioBase64 := audioBase64 },
       [ServiceCall.identify base64Image mimeType, ServiceCall.history prompt,
        ServiceCall.tts historyText])

/-- `analyzePhoto` as the caller sees it: the run's outcome. -/
def analyzePhoto (svc : Services) (base64Image mimeType : String) :
    Except String AnalysisResult :=
  (analyzePhotoRun svc base64Image mimeType).1

-- Decidable equality of `Except`, used to evaluate pipeline outcomes on
-- concrete inputs.
deriving instance DecidableEq for Except

/-! ### The UI state machine of `App.tsx` -/

inductive AppState where
  | idle
  | analyzing
  | result
  deriving DecidableEq

/-- The `ResultData` record `setResult` stores. -/
structure ResultData where
  imageSrc : String
  landmark : String
  history : String
  audioBase64 : Option String
  deriving DecidableEq

/-- The three `useState` cells of `App`. -/
structure UIState where
  appState : AppState
  result : Option ResultData
  error : Option String
  deriving DecidableEq

/-- A character of the regex class `[a-zA-Z+]`. -/
def isMimeTailChar (c : Char) : Bool :=
  ('a' ≤ c && c ≤ 'z') || ('A' ≤ c && c ≤ 'Z') || c = '+'

/-- An ECMAScript LineTerminator, which `.` in a regex never matches. -/
def isLineTerminator (c : Char) : Bool :=
  c = '\n' || c = '\r' || c = Char.ofNat 0x2028 || c = Char.ofNat 0x2029

/-- The match `base64String.match(/^data:(image\x5c\x2f[a-zA-Z+]+);base64,(.+)$/)`
on the character list: `some (mimeType, base64Data)` exactly when the regex
matches, with the two capture groups. `[a-zA-Z+]+` cannot cross the mandatory
`;`, so greedy matching is maximal munch; `(.+)$` requires a non-empty
remainder with no line terminator. -/
def dataUrlMatchList (l : List Char) : Option (List Char × List Char) :=
  if l.take 11 = "data:image/".data then
    let afterScheme := l.drop 11
    let mimeTail := afterScheme.takeWhile isMimeTailChar
    let afterMime := afterScheme.dropWhile isMimeTailChar
    if mimeTail ≠ [] && afterMime.take 8 = ";base64,".data then
      let b64 := afterMime.drop 8
      if b64 ≠ [] && b64.all (fun c => !(isLineTerminator c)) then
        some ("image/".data ++ mimeTail, b64)
      else none
    else none
  else none

/-- String-level wrapper of the data-URL regex match. -/
def dataUrlMatch (s : String) : Option (String × String) :=
  match dataUrlMatchList s.data with
  | none => none
  | some (m, d) => some (String.mk m, String.mk d)

/-- Embedding of `err.message || "..."`: an empty message is falsy. -/
def jsMessageOr (e fallback : String) : String :=
  if e = "" then fallback else e

/-- Outcome of one `handleFileSelect` invocation: either an error escapes the
`onloadend` callback uncaught (the malformed-input throw), or the handler runs
to completion leaving the component in a final state. -/
inductive FileSelectOutcome where
  | threw (msg : String)
  | finished (st : UIState)
  deriving DecidableEq

/-- `handleFileSelect` from the point the file has been read into `dataUrl`:
clear the error, enter `analyzing`, match the data-URL regex — on failure
throw `"Invalid image format"` before any service call; on success run
`analyzePhoto` and either store the result and enter `result`, or store the
error text and fall back to `idle` (leaving `result` untouched). Paired with
the list of service calls the invocation makes. -/
def handleFileSelect (svc : Services) (st : UIState) (dataUrl : String) :
    FileSelectOutcome × List ServiceCall :=
  let analyzing : UIState := { st with error := none, appState := AppState.analyzing }
  match dataUrlMatch dataUrl with
  | none => (FileSelectOutcome.threw "Invalid image format", [])
  | some (mimeType, base64Data) =>
    match analyzePhotoRun svc base64Data mimeType with
    | (Except.ok analysis, calls) =>
        (FileSelectOutcome.finished
          { analyzing with
            result := some { imageSrc := dataUrl, landmark := analysis.landmark,
                             history := analysis.history,
                             audioBase64 := analysis.audioBase64 },
            appState := AppState.result },
         calls)
    | (Except.error e, calls) =>
        (FileSelectOutcome.finished
          { analyzing with
            error := some (jsMessageOr e "Failed to analyze photo"),
            appState := AppState.idle },
         calls)

/-! ### List and trim lemmas -/

theorem head?_dropWhile_false {α : Type} (p : α → Bool) (l : List α) {c : α}
    (h : (l.dropWhile p).head? = some c) : p c = false := by
  have := List.head?_dropWhile_not p l
  rw [h] at this
  exact this

theorem dropWhile_eq_self_of_head? {α : Type} {p : α → Bool} {l : List α}
    (h : ∀ c, l.head? = some c → p c = false) : l.dropWhile p = l := by
  cases l with
  | nil => rfl
  | cons a l =>
    have ha : p a = false := h a rfl
    simp [List.dropWhile_cons, ha]

theorem getLast?_dropWhile {α : Type} (p : α → Bool) (l : List α)
    (h : l.dropWhile p ≠ []) : (l.dropWhile p).getLast? = l.getLast? := by
  induction l with
  | nil => simp at h
  | cons a l ih =>
    by_cases hp : p a = true
    · rw [List.dropWhile_cons, if_pos hp] at h ⊢
      have hl : l ≠ [] := by
        intro he
        rw [he] at h
        simp at h
      rw [ih h]
      obtain ⟨x, hx⟩ := Option.isSome_iff_exists.mp (List.getLast?_isSome.mpr hl)
      show l.getLast? = (a :: l).getLast?
      rw [show a :: l = [a] ++ l from rfl, List.getLast?_append, hx]
      rfl
    · rw [List.dropWhile_cons, if_neg hp]

theorem jsTrimList_getLast?_false (l : List Char) {c : Char}
    (h : (jsTrimList l).getLast? = some c) : isJsWhitespace c = false := by
  unfold jsTrimList at h
  rw [List.getLast?_reverse] at h
  exact head?_dropWhile_false _ _ h

theorem jsTrimList_head?_false (l : List Char) {c : Char}
    (h : (jsTrimList l).head? = some c) : isJsWhitespace c = false := by
  unfold jsTrimList at h
  rw [List.head?_reverse] at h
  have hne : (l.dropWhile isJsWhitespace).reverse.dropWhile isJsWhitespace ≠ [] := by
    intro he
    rw [he] at h
    simp at h
  rw [getLast?_dropWhile _ _ hne, List.getLast?_reverse] at h
  exact head?_dropWhile_false _ _ h

theorem jsTrimList_idem (l : List Char) : jsTrimList (jsTrimList l) = jsTrimList l := by
  have h1 : (jsTrimList l).dropWhile isJsWhitespace = jsTrimList l :=
    dropWhile_eq_self_of_head? (fun c hc => jsTrimList_head?_false l hc)
  have h2 : (jsTrimList l).reverse.dropWhile isJsWhitespace = (jsTrimList l).reverse := by
    refine dropWhile_eq_self_of_head? (fun c hc => ?_)
    rw [List.head?_reverse] at hc
    exact jsTrimList_getLast?_false l hc
  show (((jsTrimList l).dropWhile isJsWhitespace).reverse.dropWhile
      isJsWhitespace).reverse = jsTrimList l
  rw [h1, h2, List.reverse_reverse]

theorem jsTrim_idem (s : String) : jsTrim (jsTrim s) = jsTrim s := by
  have h : jsTrim (jsTrim s) = String.mk (jsTrimList (jsTrimList s.data)) := rfl
  rw [h, jsTrimList_idem]
  rfl

theorem jsTextOr_trim_fixed (t : Option String) (fb : String)
    (hfb : jsTrim fb = fb) : jsTrim (jsTextOr t fb) = jsTextOr t fb := by
  cases t with
  | none => exact hfb
  | some s =>
    show jsTrim (if jsTrim s = "" then fb else jsTrim s) =
      (if jsTrim s = "" then fb else jsTrim s)
    by_cases h : jsTrim s = ""
    · rw [if_pos h]; exact hfb
    · rw [if_neg h]; exact jsTrim_idem s

theorem jsTextOr_ne_empty (t : Option String) (fb : String)
    (hfb : fb ≠ "") : jsTextOr t fb ≠ "" := by
  cases t with
  | none => exact hfb
  | some s =>
    show (if jsTrim s = "" then fb else jsTrim s) ≠ ""
    by_cases h : jsTrim s = ""
    · rw [if_pos h]; exact hfb
    · rw [if_neg h]; exact h

/-! ### Run equations for `analyzePhotoRun` -/

theorem analyzePhotoRun_err_identify (svc : Services) (img mime e : String)
    (hid : svc.identifyCall img mime = Except.error e) :
    analyzePhotoRun svc img mime =
      (Except.error e, [ServiceCall.identify img mime]) := by
  unfold analyzePhotoRun
  rw [hid]

theorem analyzePhotoRun_err_history (svc : Services) (img mime : String)
    (idr : GenTextResponse) (e : String)
    (hid : svc.identifyCall img mime = Except.ok idr)
    (hh : svc.historyCall (historyPrompt (jsTextOr idr.text "Unknown Location")) =
      Except.error e) :
    analyzePhotoRun svc img mime =
      (Except.error e,
       [ServiceCall.identify img mime,
        ServiceCall.history (historyPrompt (jsTextOr idr.text "Unknown Location"))]) := by
  unfold analyzePhotoRun
  rw [hid]
  simp only
  rw [hh]

theorem analyzePhotoRun_ok_eq (svc : Services) (img mime : String)
    (idr hr : GenTextResponse)
    (hid : svc.identifyCall img mime = Except.ok idr)
    (hh : svc.historyCall (historyPrompt (jsTextOr idr.text "Unknown Location")) =
      Except.ok hr) :
    analyzePhotoRun svc img mime =
      (Except.ok
        { landmark := jsTextOr idr.text "Unknown Location",
          history := jsTextOr hr.text "History not available.",
          audioBase64 :=
            match svc.ttsCall (jsTextOr hr.text "History not available.") with
            | Except.error _ => none
            | Except.ok resp => jsOrNull (ttsAudioChain resp) },
       [ServiceCall.identify img mime,
        ServiceCall.history (historyPrompt (jsTextOr idr.text "Unknown Location")),
        ServiceCall.tts (jsTextOr hr.text "History not available.")]) := by
  unfold analyzePhotoRun
  rw [hid]
  simp only
  rw [hh]

/-- Inversion of a successful run: the two load-bearing calls succeeded and
the result record is exactly the assembled one. -/
theorem analyzePhoto_ok_elim (svc : Services) (img mime : String) (r : AnalysisResult)
    (h : analyzePhoto svc img mime = Except.ok r) :
    ∃ idr hr, svc.identifyCall img mime = Except.ok idr ∧
      svc.historyCall (historyPrompt (jsTextOr idr.text "Unknown Location")) =
        Except.ok hr ∧
      r = { landmark := jsTextOr idr.text "Unknown Location",
            history := jsTextOr hr.text "History not available.",
            audioBase64 :=
              match svc.ttsCall (jsTextOr hr.text "History not available.") with
              | Except.error _ => none
              | Except.ok resp => jsOrNull (ttsAudioChain resp) } := by
  cases hid : svc.identifyCall img mime with
  | error e =>
    rw [analyzePhoto, analyzePhotoRun_err_identify svc img mime e hid] at h
    exact absurd h (by simp)
  | ok idr =>
    cases hh : svc.historyCall (historyPrompt (jsTextOr idr.text "Unknown Location")) with
    | error e =>
      rw [analyzePhoto, analyzePhotoRun_err_history svc img mime idr e hid hh] at h
      exact absurd h (by simp)
    | ok hr =>
      rw [analyzePhoto, analyzePhotoRun_ok_eq svc img mime idr hr hid hh] at h
      exact ⟨idr, hr, rfl, hh, (Except.ok.inj h).symm⟩

/-! ### Concrete fixtures for witnesses -/

def sampleTTSResponse : TTSResponse :=
  { candidates := some [{ content := some { parts := some [{ inlineData := some { data := some "QUJD" } }] } }] }

def sampleSvc : Services :=
  { identifyCall := fun _ _ => Except.ok { text := some " Eiffel Tower " },
    historyCall := fun _ => Except.ok { text := some "A tall tower." },
    ttsCall := fun _ => Except.ok sampleTTSResponse }

def sampleSvcNoTts : Services :=
  { sampleSvc with ttsCall := fun _ => Except.error "quota exceeded" }

/-- C1: a pipeline run returns a result exactly when the identification call
and the history call (on the label derived in that run) both succeed; a
failure of either propagates as the run's error, and the narration call plays
no part in whether the run fails. -/
theorem analyzePhoto_fatal_stages (svc : Services) (img mime : String) :
    ((∃ r, analyzePhoto svc img mime = Except.ok r) ↔
      ∃ idr, svc.identifyCall img mime = Except.ok idr ∧
        ∃ hr, svc.historyCall (historyPrompt (jsTextOr idr.text "Unknown Location")) =
          Except.ok hr) ∧
    (∀ e, svc.identifyCall img mime = Except.error e →
      analyzePhoto svc img mime = Except.error e) ∧
    (∀ idr e, svc.identifyCall img mime = Except.ok idr →
      svc.historyCall (historyPrompt (jsTextOr idr.text "Unknown Location")) =
        Except.error e →
      analyzePhoto svc img mime = Except.error e) := by
  refine ⟨⟨?_, ?_⟩, ?_, ?_⟩
  · rintro ⟨r, hrun⟩
    obtain ⟨idr, hr, hid, hh, _⟩ := analyzePhoto_ok_elim svc img mime r hrun
    exact ⟨idr, hid, hr, hh⟩
  · rintro ⟨idr, hid, hr, hh⟩
    exact ⟨_, by rw [analyzePhoto, analyzePhotoRun_ok_eq svc img mime idr hr hid hh]⟩
  · intro e hid
    rw [analyzePhoto, analyzePhotoRun_err_identify svc img mime e hid]
  · intro idr e hid hh
    rw [analyzePhoto, analyzePhotoRun_err_history svc img mime idr e hid hh]

/-- C2: a narration-stage failure is absorbed locally: replacing the narration
service by one that always throws turns a successful run's result into the
same result with `audioBase64 = none`, leaving landmark and history exactly as
stages 1 and 2 produced them, and the run still succeeds. -/
theorem narration_failure_isolated (svc svcF : Services) (img mime : String)
    (r : AnalysisResult) (e : String)
    (hidSame : ∀ a b, svcF.identifyCall a b = svc.identifyCall a b)
    (hhSame : ∀ p, svcF.historyCall p = svc.historyCall p)
    (httsF : ∀ t, svcF.ttsCall t = Except.error e)
    (hrun : analyzePhoto svc img mime = Except.ok r) :
    analyzePhoto svcF img mime =
      Except.ok { landmark := r.landmark, history := r.history, audioBase64 := none } := by
  obtain ⟨idr, hr, hid, hh, hreq⟩ := analyzePhoto_ok_elim svc img mime r hrun
  subst hreq
  rw [analyzePhoto, analyzePhotoRun_ok_eq svcF img mime idr hr
    (by rw [hidSame]; exact hid) (by rw [hhSame]; exact hh)]
  rw [httsF]

theorem narration_failure_isolated_witness :
    analyzePhoto sampleSvcNoTts "aW1n" "image/png" =
      Except.ok { landmark := "Eiffel Tower", history := "A tall tower.",
                  audioBase64 := none } :=
  narration_failure_isolated sampleSvc sampleSvcNoTts "aW1n" "image/png"
    { landmark := "Eiffel Tower", history := "A tall tower.",
      audioBase64 := some "QUJD" }
    "quota exceeded" (fun _ _ => rfl) (fun _ => rfl) (fun _ => rfl) (by decide)

/-- C3: when the identification call succeeds, the returned result's landmark
label is the literal string "Unknown Location" exactly if the service gave no
text or empty/whitespace-only text, and otherwise the service's text with
surrounding whitespace trimmed. -/
theorem landmark_label_correct (svc : Services) (img mime : String)
    (idr : GenTextResponse) (r : AnalysisResult)
    (hid : svc.identifyCall img mime = Except.ok idr)
    (hrun : analyzePhoto svc img mime = Except.ok r) :
    (idr.text = none → r.landmark = "Unknown Location") ∧
    (∀ s, idr.text = some s → jsTrim s = "" → r.landmark = "Unknown Location") ∧
    (∀ s, idr.text = some s → jsTrim s ≠ "" → r.landmark = jsTrim s) := by
  obtain ⟨idr', hr', hid', hh', hreq⟩ := analyzePhoto_ok_elim svc img mime r hrun
  rw [hid] at hid'
  obtain rfl : idr = idr' := Except.ok.inj hid'
  subst hreq
  refine ⟨?_, ?_, ?_⟩
  · intro ht
    show jsTextOr idr.text "Unknown Location" = "Unknown Location"
    rw [ht]
    rfl
  · intro s hs he
    show jsTextOr idr.text "Unknown Location" = "Unknown Location"
    rw [hs]
    show (if jsTrim s = "" then "Unknown Location" else jsTrim s) = "Unknown Location"
    rw [if_pos he]
  · intro s hs hne
    show jsTextOr idr.text "Unknown Location" = jsTrim s
    rw [hs]
    show (if jsTrim s = "" then "Unknown Location" else jsTrim s) = jsTrim s
    rw [if_neg hne]

theorem landmark_label_correct_witness :
    analyzePhoto sampleSvc "aW1n" "image/png" =
      Except.ok { landmark := "Eiffel Tower", history := "A tall tower.",
                  audioBase64 := some "QUJD" } ∧
    "Eiffel Tower" = jsTrim " Eiffel Tower " :=
  ⟨by decide,
   ((landmark_label_correct sampleSvc "aW1n" "image/png"
      { text := some " Eiffel Tower " }
      { landmark := "Eiffel Tower", history := "A tall tower.",
        audioBase64 := some "QUJD" }
      rfl (by decide)).2.2 " Eiffel Tower " rfl (by decide)).symm⟩

/-- C4: when the history call on the run's landmark label succeeds, the
returned result's history text is the literal string "History not available."
exactly if the service gave no text or empty/whitespace-only text, and
otherwise the service's text with surrounding whitespace trimmed. -/
theorem history_text_correct (svc : Services) (img mime : String)
    (hresp : GenTextResponse) (r : AnalysisResult)
    (hrun : analyzePhoto svc img mime = Except.ok r)
    (hh : svc.historyCall (historyPrompt r.landmark) = Except.ok hresp) :
    (hresp.text = none → r.history = "History not available.") ∧
    (∀ s, hresp.text = some s → jsTrim s = "" → r.history = "History not available.") ∧
    (∀ s, hresp.text = some s → jsTrim s ≠ "" → r.history = jsTrim s) := by
  obtain ⟨idr, hr', hid', hh', hreq⟩ := analyzePhoto_ok_elim svc img mime r hrun
  have hL : r.landmark = jsTextOr idr.text "Unknown Location" := by rw [hreq]
  rw [hL] at hh
  rw [hh'] at hh
  obtain rfl : hr' = hresp := Except.ok.inj hh
  have hH : r.history = jsTextOr hr'.text "History not available." := by rw [hreq]
  refine ⟨?_, ?_, ?_⟩
  · intro ht
    rw [hH, ht]
    rfl
  · intro s hs he
    rw [hH, hs]
    show (if jsTrim s = "" then "History not available." else jsTrim s) = _
    rw [if_pos he]
  · intro s hs hne
    rw [hH, hs]
    show (if jsTrim s = "" then "History not available." else jsTrim s) = _
    rw [if_neg hne]

theorem history_text_correct_witness :
    analyzePhoto sampleSvc "aW1n" "image/png" =
      Except.ok { landmark := "Eiffel Tower", history := "A tall tower.",
                  audioBase64 := some "QUJD" } ∧
    "A tall tower." = jsTrim "A tall tower." :=
  ⟨by decide,
   ((history_text_correct sampleSvc "aW1n" "image/png"
      { text := some "A tall tower." }
      { landmark := "Eiffel Tower", history := "A tall tower.",
        audioBase64 := some "QUJD" }
      (by decide) rfl).2.2 "A tall tower." rfl (by decide)).symm⟩

/-- C5: in every successful run, the prompt sent to the history service is
built from exactly the landmark label of that same run's result — it contains
the label verbatim at its fixed template position — and no history call with
any other prompt is made during the run. -/
theorem history_prompt_same_label (svc : Services) (img mime : String) (r : AnalysisResult)
    (hrun : analyzePhoto svc img mime = Except.ok r) :
    ServiceCall.history (historyPrompt r.landmark) ∈ (analyzePhotoRun svc img mime).2 ∧
    (∀ p, ServiceCall.history p ∈ (analyzePhotoRun svc img mime).2 →
      p = historyPrompt r.landmark) ∧
    historyPrompt r.landmark =
      "You are an engaging tour guide. Tell me the history and interesting facts about "
        ++ r.landmark ++
        ". Keep it engaging, informative, and concise (around 100-150 words)." := by
  obtain ⟨idr, hr', hid', hh', hreq⟩ := analyzePhoto_ok_elim svc img mime r hrun
  have hL : r.landmark = jsTextOr idr.text "Unknown Location" := by rw [hreq]
  have htr := analyzePhotoRun_ok_eq svc img mime idr hr' hid' hh'
  rw [hL, htr]
  refine ⟨?_, ?_, rfl⟩
  · simp
  · intro p hp
    simp only [List.mem_cons, List.not_mem_nil, or_false] at hp
    rcases hp with h1 | h2 | h3
    · exact absurd h1 (by simp)
    · exact (ServiceCall.history.inj h2)
    · exact absurd h3 (by simp)

theorem history_prompt_same_label_witness :
    ServiceCall.history (historyPrompt "Eiffel Tower") ∈
      (analyzePhotoRun sampleSvc "aW1n" "image/png").2 :=
  (history_prompt_same_label sampleSvc "aW1n" "image/png"
    { landmark := "Eiffel Tower", history := "A tall tower.",
      audioBase64 := some "QUJD" } (by decide)).1

/-- C6: the pipeline reads only the first part of the first candidate of the
narration response: when that part carries a non-empty inline payload the
result's audio is that payload, and when that part has no `inlineData`, the
audio is absent — even if a later part carries audio. -/
theorem narration_first_part_only (svc : Services) (img mime : String)
    (r : AnalysisResult) (resp : TTSResponse)
    (hrun : analyzePhoto svc img mime = Except.ok r)
    (htts : svc.ttsCall r.history = Except.ok resp) :
    r.audioBase64 = jsOrNull (ttsAudioChain resp) ∧
    (∀ c cs ct p ps d, resp.candidates = some (c :: cs) → c.content = some ct →
      ct.parts = some (p :: ps) → p.inlineData = some { data := some d } → d ≠ "" →
      r.audioBase64 = some d) ∧
    (∀ c cs ct p ps, resp.candidates = some (c :: cs) → c.content = some ct →
      ct.parts = some (p :: ps) → p.inlineData = none →
      r.audioBase64 = none) := by
  obtain ⟨idr, hr', hid', hh', hreq⟩ := analyzePhoto_ok_elim svc img mime r hrun
  have hH : r.history = jsTextOr hr'.text "History not available." := by rw [hreq]
  rw [hH] at htts
  have hA : r.audioBase64 = jsOrNull (ttsAudioChain resp) := by
    rw [hreq]
    show (match svc.ttsCall (jsTextOr hr'.text "History not available.") with
          | Except.error _ => none
          | Except.ok resp => jsOrNull (ttsAudioChain resp)) = _
    rw [htts]
  refine ⟨hA, ?_, ?_⟩
  · intro c cs ct p ps d hc hct hp hpd hd
    rw [hA]
    simp [ttsAudioChain, hc, hct, hp, hpd, jsOrNull, hd]
  · intro c cs ct p ps hc hct hp hpd
    rw [hA]
    simp [ttsAudioChain, hc, hct, hp, hpd, jsOrNull]

def latePart0 : TTSPart := { inlineData := none }

def latePart1 : TTSPart := { inlineData := some { data := some "QUJD" } }

def lateContent : TTSContent := { parts := some [latePart0, latePart1] }

def lateCandidate : TTSCandidate := { content := some lateContent }

def latePartTTSResponse : TTSResponse := { candidates := some [lateCandidate] }

def sampleSvcLateAudio : Services :=
  { sampleSvc with ttsCall := fun _ => Except.ok latePartTTSResponse }

theorem narration_first_part_only_witness :
    analyzePhoto sampleSvcLateAudio "aW1n" "image/png" =
      Except.ok { landmark := "Eiffel Tower", history := "A tall tower.",
                  audioBase64 := none } ∧
    ({ landmark := "Eiffel Tower", history := "A tall tower.",
       audioBase64 := none } : AnalysisResult).audioBase64 = none :=
  ⟨by decide,
   (narration_first_part_only sampleSvcLateAudio "aW1n" "image/png"
      { landmark := "Eiffel Tower", history := "A tall tower.", audioBase64 := none }
      latePartTTSResponse (by decide) rfl).2.2
     lateCandidate [] lateContent latePart0 [latePart1] rfl rfl rfl rfl⟩

/-- C7: when the selected file's data-URL form does not match the expected
image base64 shape, `handleFileSelect` throws "Invalid image format" having
made no service call at all — `analyzePhoto` is never invoked, uniformly in
the service bundle. -/
theorem malformed_input_fails_fast (svc : Services) (st : UIState) (dataUrl : String)
    (h : dataUrlMatch dataUrl = none) :
    handleFileSelect svc st dataUrl =
      (FileSelectOutcome.threw "Invalid image format", []) := by
  unfold handleFileSelect
  rw [h]

theorem malformed_input_fails_fast_witness :
    handleFileSelect sampleSvc
      { appState := AppState.idle, result := none, error := none } "not-a-data-url" =
      (FileSelectOutcome.threw "Invalid image format", []) :=
  malformed_input_fails_fast sampleSvc
    { appState := AppState.idle, result := none, error := none } "not-a-data-url"
    (by decide)

/-- C8: after a well-formed file selection, if the Orchestrator rejects the
UI ends in `idle` with a user-visible error text and its `result` cell
untouched (no result object created), and if the Orchestrator resolves the UI
stores the assembled result object and ends in `result`. -/
theorem ui_transitions_on_outcome (svc : Services) (st : UIState)
    (dataUrl mime data : String)
    (hm : dataUrlMatch dataUrl = some (mime, data)) :
    (∀ e, analyzePhoto svc data mime = Except.error e →
      handleFileSelect svc st dataUrl =
        (FileSelectOutcome.finished
          { appState := AppState.idle, result := st.result,
            error := some (jsMessageOr e "Failed to analyze photo") },
         (analyzePhotoRun svc data mime).2)) ∧
    (∀ a, analyzePhoto svc data mime = Except.ok a →
      handleFileSelect svc st dataUrl =
        (FileSelectOutcome.finished
          { appState := AppState.result,
            result := some { imageSrc := dataUrl, landmark := a.landmark,
                             history := a.history, audioBase64 := a.audioBase64 },
            error := none },
         (analyzePhotoRun svc data mime).2)) := by
  constructor
  · intro e he
    rw [analyzePhoto] at he
    cases hr : analyzePhotoRun svc data mime with
    | mk res calls =>
      rw [hr] at he
      simp only at he
      subst he
      unfold handleFileSelect
      rw [hm]
      simp only
      rw [hr]
  · intro a ha
    rw [analyzePhoto] at ha
    cases hr : analyzePhotoRun svc data mime with
    | mk res calls =>
      rw [hr] at ha
      simp only at ha
      subst ha
      unfold handleFileSelect
      rw [hm]
      simp only
      rw [hr]

def errSvc : Services :=
  { sampleSvc with identifyCall := fun _ _ => Except.error "identify down" }

theorem ui_transitions_on_outcome_witness :
    handleFileSelect errSvc
      { appState := AppState.idle, result := none, error := none }
      "data:image/png;base64,AAAA" =
      (FileSelectOutcome.finished
        { appState := AppState.idle, result := none,
          error := some (jsMessageOr "identify down" "Failed to analyze photo") },
       (analyzePhotoRun errSvc "AAAA" "image/png").2) :=
  (ui_transitions_on_outcome errSvc
    { appState := AppState.idle, result := none, error := none }
    "data:image/png;base64,AAAA" "image/png" "AAAA" (by decide)).1
    "identify down" (by decide)

/-- C9: every result `analyzePhoto` returns has non-empty landmark and
history fields that are fixed points of trimming, i.e. carry no leading or
trailing whitespace. -/
theorem result_fields_trimmed_nonempty (svc : Services) (img mime : String)
    (r : AnalysisResult) (hrun : analyzePhoto svc img mime = Except.ok r) :
    r.landmark ≠ "" ∧ jsTrim r.landmark = r.landmark ∧
    r.history ≠ "" ∧ jsTrim r.history = r.history := by
  obtain ⟨idr, hr', hid', hh', hreq⟩ := analyzePhoto_ok_elim svc img mime r hrun
  subst hreq
  exact ⟨jsTextOr_ne_empty _ _ (by decide), jsTextOr_trim_fixed _ _ (by decide),
         jsTextOr_ne_empty _ _ (by decide), jsTextOr_trim_fixed _ _ (by decide)⟩

theorem result_fields_trimmed_nonempty_witness :
    "Eiffel Tower" ≠ "" ∧ jsTrim "Eiffel Tower" = "Eiffel Tower" ∧
    "A tall tower." ≠ "" ∧ jsTrim "A tall tower." = "A tall tower." :=
  result_fields_trimmed_nonempty sampleSvc "aW1n" "image/png"
    { landmark := "Eiffel Tower", history := "A tall tower.",
      audioBase64 := some "QUJD" } (by decide)

/-- C10: the audio extraction is total over all narration-response shapes:
absent candidates, an empty candidate list, absent content, parts, inline
data or payload all yield `none`, an empty-string payload also yields `none`,
and in particular `audioBase64` is never `some ""`. -/
theorem audio_extraction_total_never_empty (svc : Services) (img mime : String)
    (r : AnalysisResult) (hrun : analyzePhoto svc img mime = Except.ok r) :
    r.audioBase64 ≠ some "" ∧
    (∀ resp : TTSResponse, jsOrNull (ttsAudioChain resp) ≠ some "") ∧
    (∀ resp : TTSResponse, resp.candidates = none →
      jsOrNull (ttsAudioChain resp) = none) ∧
    (∀ resp : TTSResponse, resp.candidates = some [] →
      jsOrNull (ttsAudioChain resp) = none) ∧
    (∀ (resp : TTSResponse) (c : TTSCandidate) (cs : List TTSCandidate),
      resp.candidates = some (c :: cs) → c.content = none →
      jsOrNull (ttsAudioChain resp) = none) ∧
    (∀ (resp : TTSResponse) (c : TTSCandidate) (cs : List TTSCandidate)
      (ct : TTSContent), resp.candidates = some (c :: cs) → c.content = some ct →
      ct.parts = none → jsOrNull (ttsAudioChain resp) = none) ∧
    (∀ (resp : TTSResponse) (c : TTSCandidate) (cs : List TTSCandidate)
      (ct : TTSContent) (p : TTSPart) (ps : List TTSPart),
      resp.candidates = some (c :: cs) → c.content = some ct →
      ct.parts = some (p :: ps) → p.inlineData = none →
      jsOrNull (ttsAudioChain resp) = none) ∧
    (∀ (resp : TTSResponse) (c : TTSCandidate) (cs : List TTSCandidate)
      (ct : TTSContent) (p : TTSPart) (ps : List TTSPart),
      resp.candidates = some (c :: cs) → c.content = some ct →
      ct.parts = some (p :: ps) → p.inlineData = some { data := some "" } →
      jsOrNull (ttsAudioChain resp) = none) := by
  have hne : ∀ resp : TTSResponse, jsOrNull (ttsAudioChain resp) ≠ some "" := by
    intro resp
    cases h : ttsAudioChain resp with
    | none => simp [jsOrNull]
    | some s =>
      by_cases hs : s = ""
      · simp [jsOrNull, hs]
      · simp [jsOrNull, hs]
  refine ⟨?_, hne, ?_, ?_, ?_, ?_, ?_, ?_⟩
  · obtain ⟨idr, hr', hid', hh', hreq⟩ := analyzePhoto_ok_elim svc img mime r hrun
    have hA : r.audioBase64 =
        (match svc.ttsCall (jsTextOr hr'.text "History not available.") with
         | Except.error _ => none
         | Except.ok resp => jsOrNull (ttsAudioChain resp)) := by rw [hreq]
    rw [hA]
    cases htts : svc.ttsCall (jsTextOr hr'.text "History not available.") with
    | error e => simp
    | ok resp => simpa using hne resp
  · intro resp hc
    simp [ttsAudioChain, hc, jsOrNull]
  · intro resp hc
    simp [ttsAudioChain, hc, jsOrNull]
  · intro resp c cs hc hct
    simp [ttsAudioChain, hc, hct, jsOrNull]
  · intro resp c cs ct hc hct hp
    simp [ttsAudioChain, hc, hct, hp, jsOrNull]
  · intro resp c cs ct p ps hc hct hp hpd
    simp [ttsAudioChain, hc, hct, hp, hpd, jsOrNull]
  · intro resp c cs ct p ps hc hct hp hpd
    simp [ttsAudioChain, hc, hct, hp, hpd, jsOrNull]

theorem audio_extraction_total_never_empty_witness :
    some "QUJD" ≠ some "" ∧
    jsOrNull (ttsAudioChain { candidates := none }) = none :=
  ⟨((audio_extraction_total_never_empty sampleSvc "aW1n" "image/png"
      { landmark := "Eiffel Tower", history := "A tall tower.",
        audioBase64 := some "QUJD" } (by decide)).1),
   ((audio_extraction_total_never_empty sampleSvc "aW1n" "image/png"
      { landmark := "Eiffel Tower", history := "A tall tower.",
        audioBase64 := some "QUJD" } (by decide)).2.2.1 { candidates := none } rfl)⟩
